import Mathlib

/-!
Shallow embedding of the cross-cutting core of the Online-E-Book repository:
the authentication relay (`notification_service/shared_auth.py`), the
asynchronous telemetry emitter (`shared_logging.py`), and the per-endpoint
instrumented envelopes of the order service (`order_service/main.py`) and the
payment service (`payment_service/main.py`).

Python exceptions are modelled with `Except`; network and clock
non-determinism is threaded as explicit oracle parameters (the status/body the
remote peer replies with, the exception the HTTP library raises, the measured
wall time).  Floating-point amounts are modelled over `Int`: the code only
compares them with `0` and with each other and sums them, which the claims
never stress at float precision.
-/

deriving instance DecidableEq for Except

namespace Bookstore

/-! ### Python value / serialization model (`shared_logging.py`, `safe_serialize`) -/

/-- Python exception classes relevant to the emitter: `json.dumps` raises
`TypeError` for unencodable objects and `ValueError` for circular structures;
anything else is `otherError`. -/
inductive PyErr where
  | typeError
  | valueError
  | otherError (msg : String)
deriving DecidableEq, Repr

/-- A non-`None` Python value as seen by `safe_serialize`:
* `prim` — a value `json.dumps` encodes (with its encoding);
* `pydanticModel` — an object with a `.dict()` method (a Pydantic model),
  whose `.dict()` is the given field list; `json.dumps` on the object itself
  raises `TypeError`;
* `unencodable` — `json.dumps` raises `TypeError`; `str()` gives `str_repr`;
* `circular` — `json.dumps` raises `ValueError`; `str()` gives `str_repr`. -/
inductive PyData where
  | prim (json : String)
  | pydanticModel (fields : List (String × String))
  | unencodable (str_repr : String)
  | circular (str_repr : String)
deriving DecidableEq, Repr

/-- Python `hasattr(data, "dict")`. -/
def PyData.hasDict : PyData → Bool
  | .pydanticModel _ => true
  | _ => false

/-- Result of `data.dict()` for a value with a `.dict()` method (empty otherwise; the
code only calls it under the `hasattr` guard). -/
def PyData.dictFields : PyData → List (String × String)
  | .pydanticModel fs => fs
  | _ => []

/-- Python `str(data)`. -/
def PyData.pyStr : PyData → String
  | .prim j => j
  | .pydanticModel fs => toString fs
  | .unencodable s => s
  | .circular s => s

/-- Python `json.dumps(data)`: succeeds exactly on encodable values, raising
`TypeError`/`ValueError` otherwise (its documented failure modes). -/
def jsonDumps : PyData → Except PyErr String
  | .prim j => .ok j
  | .pydanticModel _ => .error .typeError
  | .unencodable _ => .error .typeError
  | .circular _ => .error .valueError

/-- The serialization-safe projection stored in a telemetry record:
a `.dict()` projection, a JSON-encodable value passed through, or the
`str()` text fallback. -/
inductive SerData where
  | dict (fields : List (String × String))
  | value (d : PyData)
  | text (s : String)
deriving DecidableEq, Repr

/-- Function `safe_serialize` from `shared_logging.py` (lines 43-54): `None` passes
through; a value with `.dict()` is projected to its dict; otherwise
`json.dumps` is tried, and a `TypeError`/`ValueError` from it is caught and
replaced by the `str()` fallback.  Exceptions outside that caught pair would
propagate (modelled by the `.error` branch). -/
def safe_serialize (data : Option PyData) : Except PyErr (Option SerData) :=
  match data with
  | none => .ok none
  | some d =>
    if d.hasDict then .ok (some (.dict d.dictFields))
    else
      match jsonDumps d with
      | .ok _ => .ok (some (.value d))
      | .error .typeError => .ok (some (.text d.pyStr))
      | .error .valueError => .ok (some (.text d.pyStr))
      | .error e => .error e

/-! ### Telemetry records and the detached dispatch (`MicroserviceLogger`) -/

/-- The `log_data` dict built by `MicroserviceLogger.log_request`
(`shared_logging.py` lines 56-67). -/
structure TelemetryRecord where
  service_name : String
  endpoint : String
  method : String
  status_code : Nat
  user_id : Option Int
  request_data : Option SerData
  response_data : Option SerData
  error_message : Option String
  execution_time_ms : Option Int
  timestamp : String
deriving DecidableEq, Repr

/-- The thread spawned by `_send_log_async`: its closure captures the record
and the sink URL; `thread.daemon = True`; the handle stays local to
`_send_log_async`, so no caller can join it. -/
structure SpawnedThread where
  url : String
  target : TelemetryRecord
  daemon : Bool
deriving DecidableEq, Repr

/-- What the sink does with the detached `POST /logs`: replies with a status,
or the HTTP client raises (connection failure, its 5-second timeout, ...). -/
inductive SinkOutcome where
  | reply (status : Nat)
  | exc (msg : String)
deriving DecidableEq, Repr

/-- Observable effects of one run of the `send_log` closure: how many
outbound posts it made and what it printed to the local console. -/
structure SendResult where
  attempts : Nat
  printed : Option String
deriving DecidableEq, Repr

/-- The `send_log` closure inside `_send_log_async` (`shared_logging.py`
lines 15-22): one `POST` to the sink; a non-200 reply is printed locally; any
exception from the client is caught by `except Exception` and printed
locally.  Nothing is retried or re-raised. -/
def send_log (logging_service_url : String) (log_data : TelemetryRecord)
    (sink : SinkOutcome) : Except PyErr SendResult :=
  match sink with
  | .reply status =>
      if status ≠ 200 then
        .ok { attempts := 1,
              printed := some ("Failed to send log to logging service: " ++ toString status) }
      else
        .ok { attempts := 1, printed := none }
  | .exc msg =>
      .ok { attempts := 1,
            printed := some ("Error sending log to logging service: " ++ msg) }

/-- State of a `MicroserviceLogger` (`shared_logging.py` lines 8-11). -/
structure MicroserviceLogger where
  service_name : String
  logging_service_url : String := "http://localhost:8004"
deriving DecidableEq, Repr

/-- Method `_send_log_async` (lines 13-27): wrap the record in a daemon thread and
start it; the thread handle is dropped (not returned). -/
def MicroserviceLogger.send_log_async (logger : MicroserviceLogger)
    (log_data : TelemetryRecord) : SpawnedThread :=
  { url := logger.logging_service_url, target := log_data, daemon := true }

/-- Method `log_request` (lines 29-70): serialize the request/response projections
with `safe_serialize`, assemble the record, and hand it to the detached
dispatch path.  `nowIso` models `datetime.utcnow().isoformat()`.  The value
returned to the Python caller is `None`; the `SpawnedThread` is the side
effect (the started, unjoinable daemon thread). -/
def MicroserviceLogger.log_request (logger : MicroserviceLogger) (nowIso : String)
    (endpoint method : String) (status_code : Nat) (user_id : Option Int)
    (request_data response_data : Option PyData) (error_message : Option String)
    (execution_time_ms : Option Int) : Except PyErr SpawnedThread := do
  let req ← safe_serialize request_data
  let resp ← safe_serialize response_data
  let log_data : TelemetryRecord :=
    { service_name := logger.service_name
      endpoint := endpoint
      method := method
      status_code := status_code
      user_id := user_id
      request_data := req
      response_data := resp
      error_message := error_message
      execution_time_ms := execution_time_ms
      timestamp := nowIso }
  pure (logger.send_log_async log_data)

/-- Threads actually started by one `log_request` call (none if record
construction had raised). -/
def spawnedOf : Except PyErr SpawnedThread → List SpawnedThread
  | .ok th => [th]
  | .error _ => []

/-- The telemetry records carried by a list of spawned dispatch threads. -/
def recordsOf (ths : List SpawnedThread) : List TelemetryRecord :=
  ths.map SpawnedThread.target

/-- Run a spawned dispatch thread against the behavior of the sink. -/
def runThread (th : SpawnedThread) (sink : SinkOutcome) : Except PyErr SendResult :=
  send_log th.url th.target sink

/-! ### Authentication relay (`notification_service/shared_auth.py`) -/

/-- A FastAPI `HTTPException`: status, `detail`, and extra response headers. -/
structure HTTPError where
  status_code : Nat
  detail : String
  headers : List (String × String) := []
deriving DecidableEq, Repr

/-- The identity dict the `/verify-token` endpoint of the user service returns on
success (`user_service/main.py` lines 242-247; the constant `valid: True`
field is omitted). -/
structure Identity where
  user_id : Int
  username : String
  email : String
deriving DecidableEq, Repr

/-- Outcome of the one outbound `requests.get` to the identity service: a
reply with some status (body parsed as the identity dict when consulted), or
a `requests.RequestException` (connection failure, or a timeout — `timedOut`
distinguishes `requests.Timeout`). -/
inductive ReqOutcome where
  | reply (status : Nat) (body : Identity)
  | requestException (timedOut : Bool)
deriving DecidableEq, Repr

def USER_SERVICE_URL : String := "http://localhost:8001"

/-- Static description of an outbound HTTP call: `timeout := none` means the
call site passes no timeout argument, so the library default (wait forever
for `requests`, 5 s for the `httpx.Client(timeout=5.0)` of the emitter) applies.
Units are seconds. -/
structure OutboundCall where
  httpMethod : String
  url : String
  timeout : Option Nat
deriving DecidableEq, Repr

/-- The verification call issued by
`AuthService.verify_token_with_user_service` (`shared_auth.py` line 20):
`requests.get(f"{USER_SERVICE_URL}/verify-token", headers=headers)` — note no
`timeout=` argument is passed. -/
def verifyTokenRequest : OutboundCall :=
  { httpMethod := "GET", url := USER_SERVICE_URL ++ "/verify-token", timeout := none }

/-- The sink call made by the detached emitter thread
(`shared_logging.py` lines 17-18): `httpx.Client(timeout=5.0)` posting to
`{logging_service_url}/logs`. -/
def telemetrySinkRequest (logging_service_url : String) : OutboundCall :=
  { httpMethod := "POST", url := logging_service_url ++ "/logs", timeout := some 5 }

/-- Method `AuthService.verify_token_with_user_service` (`shared_auth.py` lines
15-34): one `GET /verify-token` with the bearer token; a 200 reply yields the
parsed identity; any other status raises 401 `"Invalid authentication
credentials"` with a `WWW-Authenticate: Bearer` header; a
`requests.RequestException` is caught and re-raised as 503 `"Authentication
service unavailable"`.  (The 401 `HTTPException` is not a
`RequestException`, so the `except` clause does not intercept it.) -/
def verify_token_with_user_service (token : String) (net : ReqOutcome) :
    Except HTTPError Identity :=
  match net with
  | .reply status body =>
      if status = 200 then .ok body
      else
        .error { status_code := 401
                 detail := "Invalid authentication credentials"
                 headers := [("WWW-Authenticate", "Bearer")] }
  | .requestException _ =>
      .error { status_code := 503, detail := "Authentication service unavailable" }

/-- Python `authorization.partition(" ")` as used by FastAPI
`get_authorization_scheme_param`: the text before the first space and the
text after it (everything, unsplit). -/
def splitAtFirstSpace : List Char → List Char × List Char
  | [] => ([], [])
  | c :: cs =>
      if c = ' ' then ([], cs)
      else
        let r := splitAtFirstSpace cs
        (c :: r.1, r.2)

/-- Model of the FastAPI `HTTPBearer()` security scheme (the `security`
dependency, `shared_auth.py` line 10) with its library default
`auto_error=True`, per `fastapi/security/http.py`: a missing or blank
authorization header raises 403 `"Not authenticated"`; a non-Bearer scheme
raises 403 `"Invalid authentication credentials"`; otherwise the credentials
(the part after the first space) are returned.  This dependency resolves
before any endpoint or downstream dependency code runs. -/
def httpBearer (authorization : Option String) : Except HTTPError String :=
  match authorization with
  | none => .error { status_code := 403, detail := "Not authenticated" }
  | some v =>
      let (schemeChars, credChars) := splitAtFirstSpace v.toList
      let scheme := String.mk schemeChars
      let credentials := String.mk credChars
      if scheme = "" ∨ credentials = "" then
        .error { status_code := 403, detail := "Not authenticated" }
      else if String.mk (schemeChars.map Char.toLower) ≠ "bearer" then
        .error { status_code := 403, detail := "Invalid authentication credentials" }
      else .ok credentials

/-- Function `get_current_user` (`shared_auth.py` lines 36-40): forwards the extracted
token to the verification call. -/
def get_current_user (token : String) (net : ReqOutcome) : Except HTTPError Identity :=
  verify_token_with_user_service token net

/-- The full `require_auth` dependency chain (`shared_auth.py` lines 42-44)
as FastAPI resolves it: first `security` (`httpBearer`), then
`get_current_user` on the extracted token.  The second component counts the
outbound identity-service calls made (each `verify_token_with_user_service`
invocation performs exactly one). -/
def require_auth (authorization : Option String) (net : ReqOutcome) :
    Except HTTPError Identity × Nat :=
  match httpBearer authorization with
  | .error e => (.error e, 0)
  | .ok token => (get_current_user token net, 1)

/-- HTTP status a FastAPI caller observes from an `Except` outcome: the
status of the exception on the error path, 200 on the plain-return path. -/
def statusOf {α : Type} : Except HTTPError α → Nat
  | .ok _ => 200
  | .error e => e.status_code

/-! ### Order service (`order_service/main.py`): the `create_order` envelope -/

/-- The `OrderItemCreate` request model (`order_service/main.py` lines 31-34);
the float price is modelled over `Int` (only sign tests and sums occur). -/
structure OrderItemCreate where
  book_id : Int
  quantity : Int
  price : Int
deriving DecidableEq, Repr

/-- The `OrderCreate` request model (lines 54-56). -/
structure OrderCreate where
  user_id : Int
  items : List OrderItemCreate
deriving DecidableEq, Repr

/-- The persisted `Order` row as `create_order` builds it (lines 123-128). -/
structure OrderRow where
  user_id : Int
  status : String
  total_amount : Int
deriving DecidableEq, Repr

/-- The per-item validation loop of `create_order` (lines 111-117): first
failing check of the first failing item wins. -/
def validateOrderItems : List OrderItemCreate → Option HTTPError
  | [] => none
  | item :: rest =>
      if item.quantity ≤ 0 then
        some { status_code := 400, detail := "Item quantity must be greater than 0" }
      else if item.price ≤ 0 then
        some { status_code := 400, detail := "Item price must be greater than 0" }
      else if item.book_id ≤ 0 then
        some { status_code := 400, detail := "Invalid book ID" }
      else validateOrderItems rest

/-- Outcome of a Python `try` body: normal value, raised `HTTPException`, or
any other (unexpected) exception carrying its `str()`. -/
inductive BodyOutcome (α : Type) where
  | ok (v : α)
  | httpExc (e : HTTPError)
  | exc (msg : String)
deriving DecidableEq, Repr

/-- The `try` body of `create_order` (lines 102-145): validation raises 400
`HTTPException`s; then the order row is built and committed.  `dbFault` is
the oracle for the database layer: `some msg` means the SQLAlchemy calls
raise an unexpected exception with `str(e) = msg`. -/
def create_order_body (order : OrderCreate) (dbFault : Option String) :
    BodyOutcome OrderRow :=
  if order.items.isEmpty then
    .httpExc { status_code := 400, detail := "Order must contain at least one item" }
  else if order.user_id ≤ 0 then
    .httpExc { status_code := 400, detail := "Invalid user ID" }
  else
    match validateOrderItems order.items with
    | some e => .httpExc e
    | none =>
      match dbFault with
      | some msg => .exc msg
      | none =>
          .ok { user_id := order.user_id
                status := "pending"
                total_amount := (order.items.map (fun i => i.price * i.quantity)).sum }

def order_logger : MicroserviceLogger := { service_name := "order_service" }

/-- The request model as the `request_data` argument of `log_request`: a
Pydantic model, so `safe_serialize` takes its `.dict()` projection. -/
def orderPyData (order : OrderCreate) : PyData :=
  .pydanticModel [("user_id", toString order.user_id),
                  ("items", toString (order.items.map (fun i => (i.book_id, i.quantity, i.price))))]

/-- The SQLAlchemy `Order` object passed as `response_data`: it has no
`.dict()` and `json.dumps` rejects it, so `safe_serialize` falls back to its
`str()` form. -/
def orderRowPyData (row : OrderRow) : PyData :=
  .unencodable ("<Order user_id=" ++ toString row.user_id ++ " status=" ++ row.status ++
                " total_amount=" ++ toString row.total_amount ++ ">")

/-- Endpoint `create_order` (lines 93-170) after its dependencies resolved:
the `try/except/except/finally` with the unconditional `log_request` in
`finally`.  On `HTTPException` the record takes that status and
detail and the exception is re-raised; on an unexpected exception the record
takes 500 with the fixed message `"Error creating order"` and a fresh generic
500 `HTTPException` is raised (the internal `str(e)` never reaches caller or
record).  Returns the caller-visible outcome and the dispatch threads
spawned. -/
def create_order (current_user : Identity) (order : OrderCreate) (dbFault : Option String)
    (nowIso : String) (execMs : Int) :
    Except HTTPError OrderRow × List SpawnedThread :=
  let uid : Option Int := some current_user.user_id
  match create_order_body order dbFault with
  | .ok row =>
      let lr := order_logger.log_request nowIso "/orders" "POST" 200 uid
        (some (orderPyData order)) (some (orderRowPyData row)) none (some execMs)
      (.ok row, spawnedOf lr)
  | .httpExc e =>
      let lr := order_logger.log_request nowIso "/orders" "POST" e.status_code uid
        (some (orderPyData order)) none (some e.detail) (some execMs)
      (.error e, spawnedOf lr)
  | .exc _msg =>
      let lr := order_logger.log_request nowIso "/orders" "POST" 500 uid
        (some (orderPyData order)) none (some "Error creating order") (some execMs)
      (.error { status_code := 500, detail := "Error creating order" }, spawnedOf lr)

/-- One full request to `POST /orders` as FastAPI dispatches it: the
`require_auth` dependency resolves first, and only on success does the
endpoint body (with its `finally` telemetry) run.  A dependency failure
returns the auth error with no handler code executed.  The `Nat` counts
outbound identity-service calls. -/
def handleCreateOrder (authorization : Option String) (net : ReqOutcome)
    (order : OrderCreate) (dbFault : Option String) (nowIso : String) (execMs : Int) :
    (Except HTTPError OrderRow × List SpawnedThread) × Nat :=
  match require_auth authorization net with
  | (.error e, n) => ((.error e, []), n)
  | (.ok user, n) => (create_order user order dbFault nowIso execMs, n)

/-! ### Payment service (`payment_service/main.py`) -/

/-- The `PaymentCreate` request model (lines 31-35); float amount over `Int`. -/
structure PaymentCreate where
  order_id : Int
  amount : Int
  payment_method : String
  card_number : String
deriving DecidableEq, Repr

/-- A committed `Payment` row (primary key assigned at commit). -/
structure PaymentRow where
  id : Nat
  order_id : Int
  amount : Int
  payment_method : String
  status : String
deriving DecidableEq, Repr

/-- A row added to the session but not yet committed (no primary key). -/
structure PendingRow where
  order_id : Int
  amount : Int
  payment_method : String
  status : String
deriving DecidableEq, Repr

/-- The payment database through one SQLAlchemy session: committed rows and
the pending (added, uncommitted) rows of the session. -/
structure DB where
  committed : List PaymentRow
  pending : List PendingRow
deriving DecidableEq, Repr

/-- Session method `db.add(row)`. -/
def DB.add (db : DB) (r : PendingRow) : DB :=
  { db with pending := db.pending ++ [r] }

/-- Session method `db.commit()`: pending rows become committed, receiving sequential
primary keys. -/
def DB.commit (db : DB) : DB :=
  { committed := db.committed ++
      (List.range db.pending.length).zipWith
        (fun i (r : PendingRow) =>
          ({ id := db.committed.length + i + 1, order_id := r.order_id,
             amount := r.amount, payment_method := r.payment_method,
             status := r.status } : PaymentRow))
        db.pending
    pending := [] }

/-- Session method `db.rollback()`: discards only uncommitted work; committed rows stay. -/
def DB.rollback (db : DB) : DB :=
  { db with pending := [] }

/-- Python `str.strip()`: drop leading and trailing whitespace. -/
def pyStrip (s : String) : String :=
  String.mk (((s.toList.dropWhile Char.isWhitespace).reverse.dropWhile
      Char.isWhitespace).reverse)

/-- The cleanup `payment.card_number.replace(" ", "").replace("-", "")` (line 73). -/
def cleanCardNumber (s : String) : String :=
  String.mk (s.toList.filter (fun c => c ≠ ' ' ∧ c ≠ '-'))

/-- Python `card_number.isdigit()` — true only for a non-empty all-digit string. -/
def pyIsDigit (s : String) : Bool :=
  s.length > 0 && s.toList.all Char.isDigit

def payment_logger : MicroserviceLogger := { service_name := "payment_service" }

/-- The `PaymentCreate` Pydantic model as `request_data` for telemetry. -/
def paymentPyData (p : PaymentCreate) : PyData :=
  .pydanticModel [("order_id", toString p.order_id), ("amount", toString p.amount),
                  ("payment_method", p.payment_method), ("card_number", p.card_number)]

/-- The SQLAlchemy `Payment` object as `response_data` (no `.dict()`, not
JSON-encodable, so telemetry stores its `str()` form). -/
def paymentRowPyData (row : PaymentRow) : PyData :=
  .unencodable ("<Payment id=" ++ toString row.id ++ " status=" ++ row.status ++ ">")

/-- The `try` body of `process_payment` (`payment_service/main.py` lines
61-97): validations raise 400; then the `Payment` row — status `"completed"`
or `"failed"` according to the simulated 75% charge coin `chargeSuccess` — is
added and COMMITTED; only after the commit does a failed charge raise 400
`"Payment processing failed"`.  Returns the body outcome together with the
session state at the moment control leaves the `try`. -/
def process_payment_body (payment : PaymentCreate) (chargeSuccess : Bool) (db : DB) :
    BodyOutcome PaymentRow × DB :=
  if payment.amount ≤ 0 then
    (.httpExc { status_code := 400, detail := "Payment amount must be greater than 0" }, db)
  else if payment.order_id ≤ 0 then
    (.httpExc { status_code := 400, detail := "Invalid order ID" }, db)
  else if pyStrip payment.payment_method = "" then
    (.httpExc { status_code := 400, detail := "Payment method cannot be empty" }, db)
  else if pyStrip payment.card_number = "" then
    (.httpExc { status_code := 400, detail := "Card number cannot be empty" }, db)
  else
    let card := cleanCardNumber payment.card_number
    if ¬ pyIsDigit card ∨ card.length < 13 ∨ card.length > 19 then
      (.httpExc { status_code := 400, detail := "Invalid card number format" }, db)
    else
      let row : PendingRow :=
        { order_id := payment.order_id
          amount := payment.amount
          payment_method := pyStrip payment.payment_method
          status := if chargeSuccess then "completed" else "failed" }
      let db₁ := (db.add row).commit
      match db₁.committed.getLast? with
      | none => (.exc "refresh failed", db₁)
      | some refreshed =>
          if ¬ chargeSuccess then
            (.httpExc { status_code := 400, detail := "Payment processing failed" }, db₁)
          else
            (.ok refreshed, db₁)

/-- Endpoint `process_payment` (lines 52-119): the body above, then the `except`
clauses call `db.rollback()` (which cannot undo a commit) and re-raise, and
the `finally` emits exactly one telemetry record whose status matches the
caller-visible outcome. -/
def process_payment (current_user : Identity) (payment : PaymentCreate)
    (chargeSuccess : Bool) (db : DB) (nowIso : String) (execMs : Int) :
    (Except HTTPError PaymentRow × DB) × List SpawnedThread :=
  let uid : Option Int := some current_user.user_id
  match process_payment_body payment chargeSuccess db with
  | (.ok row, db') =>
      let lr := payment_logger.log_request nowIso "/payments" "POST" 200 uid
        (some (paymentPyData payment)) (some (paymentRowPyData row)) none (some execMs)
      ((.ok row, db'), spawnedOf lr)
  | (.httpExc e, db') =>
      let lr := payment_logger.log_request nowIso "/payments" "POST" e.status_code uid
        (some (paymentPyData payment)) none (some e.detail) (some execMs)
      ((.error e, db'.rollback), spawnedOf lr)
  | (.exc _msg, db') =>
      let lr := payment_logger.log_request nowIso "/payments" "POST" 500 uid
        (some (paymentPyData payment)) none (some "Error processing payment") (some execMs)
      ((.error { status_code := 500, detail := "Error processing payment" }, db'.rollback),
       spawnedOf lr)

/-- The `RefundCreate` request model (lines 48-50). -/
structure RefundCreate where
  amount : Int
  reason : String
deriving DecidableEq, Repr

/-- The dict returned by a successful refund (lines 217-222). -/
structure RefundResponse where
  message : String
  refund_id : Nat
  amount : Int
  reason : String
deriving DecidableEq, Repr

/-- Endpoint `process_refund` (lines 191-222) after `require_auth` resolved: look the
payment up, check it is `"completed"` and the amount fits, then add and
commit a negative-amount `"refunded"` row.  Note the function contains NO
`log_request` call and no `try/finally`: the spawned-thread list is empty on
every path. -/
def process_refund (payment_id : Nat) (refund : RefundCreate) (db : DB) :
    (Except HTTPError RefundResponse × DB) × List SpawnedThread :=
  match db.committed.find? (fun r => r.id = payment_id) with
  | none =>
      ((.error { status_code := 404, detail := "Payment not found" }, db), [])
  | some payment =>
      if payment.status ≠ "completed" then
        ((.error { status_code := 400, detail := "Can only refund completed payments" }, db), [])
      else if refund.amount > payment.amount then
        ((.error { status_code := 400,
                   detail := "Refund amount cannot exceed payment amount" }, db), [])
      else
        let row : PendingRow :=
          { order_id := payment.order_id
            amount := -refund.amount
            payment_method := payment.payment_method
            status := "refunded" }
        let db₁ := (db.add row).commit
        match db₁.committed.getLast? with
        | none => ((.error { status_code := 500, detail := "Error processing payment" }, db₁), [])
        | some refreshed =>
            ((.ok { message := "Refund processed successfully"
                    refund_id := refreshed.id
                    amount := refund.amount
                    reason := refund.reason }, db₁), [])

/-- Boolean success test for an `Except` value. -/
def isOkB {ε α : Type} : Except ε α → Bool
  | .ok _ => true
  | .error _ => false

/-- One full `POST /orders` request lifecycle: the request task computes the
caller-visible outcome (response and identity-call count, the first
component) and hands the spawned dispatch threads to the scheduler; the
detached threads are resolved against the sink behavior separately (second
component).  The split mirrors the code: the endpoint returns without
consulting the sink. -/
def runCreateOrderRequest (authorization : Option String) (net : ReqOutcome)
    (order : OrderCreate) (dbFault : Option String) (nowIso : String) (execMs : Int)
    (sink : SinkOutcome) :
    (Except HTTPError OrderRow × Nat) × List (Except PyErr SendResult) :=
  let r := handleCreateOrder authorization net order dbFault nowIso execMs
  ((r.1.1, r.2), r.1.2.map (fun th => runThread th sink))

/-! ### Helper lemmas -/

/-- Helper: `safe_serialize` succeeds on every input of the value model. -/
theorem safe_serialize_ok (d : Option PyData) : ∃ v, safe_serialize d = .ok v := by
  match d with
  | none => exact ⟨none, rfl⟩
  | some (.prim j) => exact ⟨_, rfl⟩
  | some (.pydanticModel fs) => exact ⟨_, rfl⟩
  | some (.unencodable s) => exact ⟨_, rfl⟩
  | some (.circular s) => exact ⟨_, rfl⟩

/-- Helper: `log_request` always succeeds and spawns one daemon thread
carrying the assembled record. -/
theorem log_request_spec (logger : MicroserviceLogger) (nowIso ep m : String)
    (sc : Nat) (uid : Option Int) (rd rsp : Option PyData) (em : Option String)
    (etms : Option Int) :
    ∃ req resp, safe_serialize rd = .ok req ∧ safe_serialize rsp = .ok resp ∧
      logger.log_request nowIso ep m sc uid rd rsp em etms =
        .ok { url := logger.logging_service_url
              target := { service_name := logger.service_name, endpoint := ep, method := m,
                          status_code := sc, user_id := uid, request_data := req,
                          response_data := resp, error_message := em,
                          execution_time_ms := etms, timestamp := nowIso }
              daemon := true } := by
  obtain ⟨req, hreq⟩ := safe_serialize_ok rd
  obtain ⟨resp, hrsp⟩ := safe_serialize_ok rsp
  refine ⟨req, resp, hreq, hrsp, ?_⟩
  simp only [MicroserviceLogger.log_request, MicroserviceLogger.send_log_async, hreq, hrsp]
  rfl

/-- Helper: `send_log` never raises. -/
theorem send_log_isOk (url : String) (rec : TelemetryRecord) (sink : SinkOutcome) :
    isOkB (send_log url rec sink) = true := by
  cases sink with
  | reply status =>
      by_cases h : status = 200 <;> simp [send_log, h, isOkB]
  | exc msg => simp [send_log, isOkB]

/-- Helper: committing a session that holds exactly one freshly added row
appends that row, with the next primary key, to the committed table. -/
theorem DB.commit_add_empty (db : DB) (r : PendingRow) (h : db.pending = []) :
    (db.add r).commit =
      { committed := db.committed.concat
          { id := db.committed.length + 1, order_id := r.order_id, amount := r.amount,
            payment_method := r.payment_method, status := r.status },
        pending := [] } := by
  simp [DB.add, DB.commit, h, List.concat_eq_append, show List.range 1 = [0] from rfl,
        List.zipWith]

/-- Helper: the spawned-thread list of `create_order` is exactly one daemon
thread whose record mirrors the caller-visible outcome. -/
theorem create_order_spawned (user : Identity) (order : OrderCreate)
    (dbFault : Option String) (nowIso : String) (execMs : Int) :
    ∃ th : SpawnedThread,
      (create_order user order dbFault nowIso execMs).2 = [th] ∧
      th.daemon = true ∧ th.url = "http://localhost:8004" ∧
      th.target.status_code = statusOf (create_order user order dbFault nowIso execMs).1 ∧
      th.target.error_message =
        (match create_order_body order dbFault with
         | .ok _ => none
         | .httpExc e => some e.detail
         | .exc _ => some "Error creating order") := by
  rcases hb : create_order_body order dbFault with row | e | msg
  · obtain ⟨req, resp, -, -, hlr⟩ := log_request_spec order_logger nowIso "/orders" "POST"
      200 (some user.user_id) (some (orderPyData order)) (some (orderRowPyData row))
      none (some execMs)
    simp only [create_order, hb, hlr, spawnedOf]
    exact ⟨_, rfl, rfl, rfl, rfl, rfl⟩
  · obtain ⟨req, resp, -, -, hlr⟩ := log_request_spec order_logger nowIso "/orders" "POST"
      e.status_code (some user.user_id) (some (orderPyData order)) none
      (some e.detail) (some execMs)
    simp only [create_order, hb, hlr, spawnedOf]
    exact ⟨_, rfl, rfl, rfl, rfl, rfl⟩
  · obtain ⟨req, resp, -, -, hlr⟩ := log_request_spec order_logger nowIso "/orders" "POST"
      500 (some user.user_id) (some (orderPyData order)) none
      (some "Error creating order") (some execMs)
    simp only [create_order, hb, hlr, spawnedOf]
    exact ⟨_, rfl, rfl, rfl, rfl, rfl⟩

/-- Helper: the spawned-thread list of `process_payment` is exactly one
thread whose record status mirrors the caller-visible outcome. -/
theorem process_payment_spawned (user : Identity) (payment : PaymentCreate)
    (chargeSuccess : Bool) (db : DB) (nowIso : String) (execMs : Int) :
    ∃ th : SpawnedThread,
      (process_payment user payment chargeSuccess db nowIso execMs).2 = [th] ∧
      th.target.status_code =
        statusOf (process_payment user payment chargeSuccess db nowIso execMs).1.1 := by
  rcases hb : process_payment_body payment chargeSuccess db with ⟨bo, db₂⟩
  cases bo with
  | ok row =>
      obtain ⟨req, resp, -, -, hlr⟩ := log_request_spec payment_logger nowIso "/payments"
        "POST" 200 (some user.user_id) (some (paymentPyData payment))
        (some (paymentRowPyData row)) none (some execMs)
      simp only [process_payment, hb, hlr, spawnedOf]
      exact ⟨_, rfl, rfl⟩
  | httpExc e =>
      obtain ⟨req, resp, -, -, hlr⟩ := log_request_spec payment_logger nowIso "/payments"
        "POST" e.status_code (some user.user_id) (some (paymentPyData payment)) none
        (some e.detail) (some execMs)
      simp only [process_payment, hb, hlr, spawnedOf]
      exact ⟨_, rfl, rfl⟩
  | exc m =>
      obtain ⟨req, resp, -, -, hlr⟩ := log_request_spec payment_logger nowIso "/payments"
        "POST" 500 (some user.user_id) (some (paymentPyData payment)) none
        (some "Error processing payment") (some execMs)
      simp only [process_payment, hb, hlr, spawnedOf]
      exact ⟨_, rfl, rfl⟩

/-! ### Claim theorems -/

/-- C2 counterexample: a request with no authorization header on a protected
operation is rejected locally (zero outbound identity-service calls), but
with HTTP 403 — not the 401 the claim states.  The `HTTPBearer` security
dependency raises 403 "Not authenticated" before `get_current_user` runs. -/
theorem C2_counterexample :
    statusOf (require_auth none (ReqOutcome.reply 200 ⟨7, "alice", "a@x.com"⟩)).1 = 403 ∧
    statusOf (require_auth none (ReqOutcome.reply 200 ⟨7, "alice", "a@x.com"⟩)).1 ≠ 401 ∧
    (require_auth none (ReqOutcome.reply 200 ⟨7, "alice", "a@x.com"⟩)).2 = 0 := by
  decide

/-- C2 (amended): for every request to a protected operation with no
authorization header, the service rejects locally with HTTP 403
("Not authenticated", raised by the `HTTPBearer` security scheme) before any
network I/O, making zero outbound identity-service calls — whatever the
identity service would have replied. -/
theorem C2_missing_header_rejected_locally :
    ∀ net : ReqOutcome,
      require_auth none net =
        (.error { status_code := 403, detail := "Not authenticated" }, 0) := by
  intro net
  rfl

/-- C4: whenever the identity service replies with any non-success status,
the relay yields the 401 rejection "Invalid authentication credentials" with
a `WWW-Authenticate: Bearer` challenge header — never an authenticated
identity — and an Envelope-wrapped endpoint (here `POST /orders`) returns
that 401 to its caller. -/
theorem C4_nonsuccess_reply_is_rejected :
    ∀ (token : String) (status : Nat) (body : Identity), status ≠ 200 →
      verify_token_with_user_service token (.reply status body) =
        .error { status_code := 401, detail := "Invalid authentication credentials",
                 headers := [("WWW-Authenticate", "Bearer")] } ∧
      (∀ ident : Identity,
        verify_token_with_user_service token (.reply status body) ≠ .ok ident) ∧
      ∀ (authorization : Option String) (order : OrderCreate) (dbFault : Option String)
        (nowIso : String) (execMs : Int), httpBearer authorization = .ok token →
          (handleCreateOrder authorization (.reply status body)
              order dbFault nowIso execMs).1.1 =
            .error { status_code := 401, detail := "Invalid authentication credentials",
                     headers := [("WWW-Authenticate", "Bearer")] } := by
  intro token status body h
  have hv : verify_token_with_user_service token (.reply status body) =
      .error { status_code := 401, detail := "Invalid authentication credentials",
               headers := [("WWW-Authenticate", "Bearer")] } := by
    simp [verify_token_with_user_service, h]
  refine ⟨hv, ?_, ?_⟩
  · intro ident
    simp [hv]
  · intro authorization order dbFault nowIso execMs hba
    simp [handleCreateOrder, require_auth, hba, get_current_user, hv]

/-- C4 witness: the scenario of §8 — credential "expired", identity service
replies 401 — concretely instantiated. -/
theorem C4_witness :
    verify_token_with_user_service "expired" (.reply 401 ⟨0, "", ""⟩) =
      .error { status_code := 401, detail := "Invalid authentication credentials",
               headers := [("WWW-Authenticate", "Bearer")] } ∧
    (handleCreateOrder (some "Bearer expired") (.reply 401 ⟨0, "", ""⟩)
        { user_id := 7, items := [{ book_id := 1, quantity := 1, price := 10 }] }
        none "2024-01-01T00:00:00" 3).1.1 =
      .error { status_code := 401, detail := "Invalid authentication credentials",
               headers := [("WWW-Authenticate", "Bearer")] } := by
  have h := C4_nonsuccess_reply_is_rejected "expired" 401 ⟨0, "", ""⟩ (by decide)
  exact ⟨h.1, h.2.2 (some "Bearer expired")
    { user_id := 7, items := [{ book_id := 1, quantity := 1, price := 10 }] }
    none "2024-01-01T00:00:00" 3 (by decide)⟩

/-- C5: whenever the outbound verification call raises (timeout or
connection failure), the relay yields the 503 "Authentication service
unavailable" outcome — never 401 — and an Envelope-wrapped endpoint returns
503 to its caller. -/
theorem C5_relay_unavailable_maps_to_503 :
    ∀ (token : String) (timedOut : Bool),
      verify_token_with_user_service token (.requestException timedOut) =
        .error { status_code := 503, detail := "Authentication service unavailable" } ∧
      statusOf (verify_token_with_user_service token (.requestException timedOut)) ≠ 401 ∧
      ∀ (authorization : Option String) (order : OrderCreate) (dbFault : Option String)
        (nowIso : String) (execMs : Int), httpBearer authorization = .ok token →
          statusOf (handleCreateOrder authorization (.requestException timedOut)
              order dbFault nowIso execMs).1.1 = 503 := by
  intro token timedOut
  refine ⟨rfl, by simp [verify_token_with_user_service, statusOf], ?_⟩
  intro authorization order dbFault nowIso execMs hba
  simp [handleCreateOrder, require_auth, hba, get_current_user,
        verify_token_with_user_service, statusOf]

/-- C5 witness: the connection-refused scenario of §8 with credential
"abc123" and a concrete order request. -/
theorem C5_witness :
    verify_token_with_user_service "abc123" (.requestException false) =
      .error { status_code := 503, detail := "Authentication service unavailable" } ∧
    statusOf (handleCreateOrder (some "Bearer abc123") (.requestException false)
        { user_id := 7, items := [{ book_id := 1, quantity := 2, price := 15 }] }
        none "2024-01-01T00:00:00" 4).1.1 = 503 := by
  have h := C5_relay_unavailable_maps_to_503 "abc123" false
  exact ⟨h.1, h.2.2 (some "Bearer abc123")
    { user_id := 7, items := [{ book_id := 1, quantity := 2, price := 15 }] }
    none "2024-01-01T00:00:00" 4 (by decide)⟩

/-- C6 counterexample: the outbound verification call is NOT bounded by a
configured timeout in the 3–10 second range — the `requests.get` call site
passes no timeout at all, so the library default (wait indefinitely)
applies. -/
theorem C6_counterexample :
    ¬ ∃ t : Nat, verifyTokenRequest.timeout = some t ∧ 3 ≤ t ∧ t ≤ 10 := by
  rintro ⟨t, ht, -⟩
  simp [verifyTokenRequest] at ht

/-- C6 (amended): the relay verification call carries no explicit timeout
(unlike the telemetry dispatch, which is bounded at 5 s); when the call does
raise a timeout or connection error, it surfaces as the 503 unavailable
outcome and no partial identity is ever returned. -/
theorem C6_relay_call_unbounded :
    verifyTokenRequest.timeout = none ∧
    (telemetrySinkRequest "http://localhost:8004").timeout = some 5 ∧
    ∀ (token : String) (timedOut : Bool),
      verify_token_with_user_service token (.requestException timedOut) =
        .error { status_code := 503, detail := "Authentication service unavailable" } ∧
      ∀ ident : Identity,
        verify_token_with_user_service token (.requestException timedOut) ≠ .ok ident := by
  refine ⟨rfl, rfl, ?_⟩
  intro token timedOut
  exact ⟨rfl, fun ident => by simp [verify_token_with_user_service]⟩

/-- C1 counterexample: `process_refund` is an Envelope-wrapped operation (an
authenticated service entry point), yet a successful refund emits ZERO
telemetry records — the endpoint contains no `log_request` call — refuting
"exactly one record on every exit path". -/
theorem C1_counterexample :
    (process_refund 1 { amount := 50, reason := "duplicate charge" }
        { committed := [{ id := 1, order_id := 5, amount := 100,
                          payment_method := "card", status := "completed" }],
          pending := [] }).1.1 =
      .ok { message := "Refund processed successfully", refund_id := 2,
            amount := 50, reason := "duplicate charge" } ∧
    recordsOf (process_refund 1 { amount := 50, reason := "duplicate charge" }
        { committed := [{ id := 1, order_id := 5, amount := 100,
                          payment_method := "card", status := "completed" }],
          pending := [] }).2 = [] := by
  decide

/-- C1 (amended): endpoints instrumented with the `try/finally` logging
pattern (`create_order`, `process_payment`) emit exactly one TelemetryRecord
per executed request, on success, business error and unexpected fault alike;
but an authentication rejection resolves in the dependency before the
handler body (and its `finally`) ever runs, so auth-rejected requests emit
zero records, and `process_refund` contains no telemetry call and emits zero
records on every path. -/
theorem C1_emission_per_exit_path :
    (∀ (user : Identity) (order : OrderCreate) (dbFault : Option String)
       (nowIso : String) (execMs : Int),
        (recordsOf (create_order user order dbFault nowIso execMs).2).length = 1) ∧
    (∀ (user : Identity) (payment : PaymentCreate) (chargeSuccess : Bool) (db : DB)
       (nowIso : String) (execMs : Int),
        (recordsOf (process_payment user payment chargeSuccess db
            nowIso execMs).2).length = 1) ∧
    (∀ (authorization : Option String) (net : ReqOutcome) (order : OrderCreate)
       (dbFault : Option String) (nowIso : String) (execMs : Int) (e : HTTPError),
        (require_auth authorization net).1 = .error e →
          recordsOf (handleCreateOrder authorization net order dbFault
              nowIso execMs).1.2 = []) ∧
    ∀ (pid : Nat) (refund : RefundCreate) (db : DB),
      recordsOf (process_refund pid refund db).2 = [] := by
  refine ⟨?_, ?_, ?_, ?_⟩
  · intro user order dbFault nowIso execMs
    obtain ⟨th, h2, -⟩ := create_order_spawned user order dbFault nowIso execMs
    simp [recordsOf, h2]
  · intro user payment chargeSuccess db nowIso execMs
    obtain ⟨th, h2, -⟩ := process_payment_spawned user payment chargeSuccess db nowIso execMs
    simp [recordsOf, h2]
  · intro authorization net order dbFault nowIso execMs e h
    rcases hr : require_auth authorization net with ⟨res, n⟩
    rw [hr] at h
    cases res with
    | ok user => simp at h
    | error e₂ => simp [handleCreateOrder, hr, recordsOf]
  · intro pid refund db
    rcases hf : db.committed.find? (fun r => r.id = pid) with _ | payment <;>
      simp only [process_refund, hf, recordsOf]
    · rfl
    · split
      · rfl
      · split
        · rfl
        · split <;> rfl

/-- C1 witness: a concrete auth-rejected request (expired bearer token, the
identity service replies 401) emits zero records, while the same order
request with a valid token emits exactly one. -/
theorem C1_witness :
    recordsOf (handleCreateOrder (some "Bearer expired")
        (.reply 401 ⟨0, "", ""⟩)
        { user_id := 7, items := [{ book_id := 1, quantity := 1, price := 10 }] }
        none "2024-01-01T00:00:00" 3).1.2 = [] ∧
    (recordsOf (create_order ⟨7, "alice", "a@x.com"⟩
        { user_id := 7, items := [{ book_id := 1, quantity := 1, price := 10 }] }
        none "2024-01-01T00:00:00" 3).2).length = 1 := by
  have h := C1_emission_per_exit_path
  exact ⟨h.2.2.1 (some "Bearer expired") (.reply 401 ⟨0, "", ""⟩)
      { user_id := 7, items := [{ book_id := 1, quantity := 1, price := 10 }] }
      none "2024-01-01T00:00:00" 3
      { status_code := 401, detail := "Invalid authentication credentials",
        headers := [("WWW-Authenticate", "Bearer")] } (by decide),
    h.1 ⟨7, "alice", "a@x.com"⟩
      { user_id := 7, items := [{ book_id := 1, quantity := 1, price := 10 }] }
      none "2024-01-01T00:00:00" 3⟩

/-- C3: every execution of the `create_order` envelope emits exactly one
record whose `status_code` equals the status returned to the caller; and an
unexpected fault (db layer raises) on an otherwise valid order yields the
generic 500 "Error creating order" to the caller together with a record with
`status_code` 500 and `error_message` populated. -/
theorem C3_record_status_matches_outcome :
    ∀ (user : Identity) (order : OrderCreate) (dbFault : Option String)
      (nowIso : String) (execMs : Int),
      ((recordsOf (create_order user order dbFault nowIso execMs).2).map
          TelemetryRecord.status_code =
        [statusOf (create_order user order dbFault nowIso execMs).1]) ∧
      (dbFault.isSome = true → order.items.isEmpty = false → 0 < order.user_id →
        validateOrderItems order.items = none →
          (create_order user order dbFault nowIso execMs).1 =
            .error { status_code := 500, detail := "Error creating order" } ∧
          (recordsOf (create_order user order dbFault nowIso execMs).2).map
              TelemetryRecord.error_message = [some "Error creating order"]) := by
  intro user order dbFault nowIso execMs
  obtain ⟨th, h2, -, -, hs, he⟩ := create_order_spawned user order dbFault nowIso execMs
  constructor
  · simp [recordsOf, h2, hs]
  · intro hsome hne hpos hval
    obtain ⟨msg, hmsg⟩ := Option.isSome_iff_exists.mp hsome
    have hb : create_order_body order dbFault = .exc msg := by
      simp [create_order_body, hne, hval, hmsg, show ¬(order.user_id ≤ 0) from not_le.mpr hpos]
    constructor
    · obtain ⟨req, resp, -, -, hlr⟩ := log_request_spec order_logger nowIso "/orders" "POST"
        500 (some user.user_id) (some (orderPyData order)) none
        (some "Error creating order") (some execMs)
      simp only [create_order, hb, hlr, spawnedOf]
    · rw [hb] at he
      simp [recordsOf, h2, he]

/-- C3 witness: a valid one-item order whose database commit raises — caller
sees the generic 500, the single record carries 500 and the error message. -/
theorem C3_witness :
    ((recordsOf (create_order ⟨7, "alice", "a@x.com"⟩
        { user_id := 7, items := [{ book_id := 1, quantity := 1, price := 10 }] }
        (some "db connection lost") "2024-01-01T00:00:00" 3).2).map
          TelemetryRecord.status_code =
      [statusOf (create_order ⟨7, "alice", "a@x.com"⟩
        { user_id := 7, items := [{ book_id := 1, quantity := 1, price := 10 }] }
        (some "db connection lost") "2024-01-01T00:00:00" 3).1]) ∧
    (create_order ⟨7, "alice", "a@x.com"⟩
        { user_id := 7, items := [{ book_id := 1, quantity := 1, price := 10 }] }
        (some "db connection lost") "2024-01-01T00:00:00" 3).1 =
      .error { status_code := 500, detail := "Error creating order" } ∧
    (recordsOf (create_order ⟨7, "alice", "a@x.com"⟩
        { user_id := 7, items := [{ book_id := 1, quantity := 1, price := 10 }] }
        (some "db connection lost") "2024-01-01T00:00:00" 3).2).map
        TelemetryRecord.error_message = [some "Error creating order"] := by
  have h := C3_record_status_matches_outcome ⟨7, "alice", "a@x.com"⟩
    { user_id := 7, items := [{ book_id := 1, quantity := 1, price := 10 }] }
    (some "db connection lost") "2024-01-01T00:00:00" 3
  have h2 := h.2 (by decide) (by decide) (by decide) (by decide)
  exact ⟨h.1, h2.1, h2.2⟩

/-- C7: serialization is total — `safe_serialize` succeeds on every value of
the model (including `None`, Pydantic models, and values `json.dumps`
rejects), an un-encodable or circular value falls back to its `str()` text,
and `log_request` therefore never raises past the emitter boundary. -/
theorem C7_serialization_total :
    (∀ d : Option PyData, ∃ v, safe_serialize d = .ok v) ∧
    (∀ s : String, safe_serialize (some (.unencodable s)) = .ok (some (.text s))) ∧
    (∀ s : String, safe_serialize (some (.circular s)) = .ok (some (.text s))) ∧
    (∀ fs : List (String × String),
      safe_serialize (some (.pydanticModel fs)) = .ok (some (.dict fs))) ∧
    ∀ (logger : MicroserviceLogger) (nowIso ep m : String) (sc : Nat) (uid : Option Int)
      (rd rsp : Option PyData) (em : Option String) (etms : Option Int),
      ∃ th, logger.log_request nowIso ep m sc uid rd rsp em etms = .ok th := by
  refine ⟨safe_serialize_ok, fun s => rfl, fun s => rfl, fun fs => rfl, ?_⟩
  intro logger nowIso ep m sc uid rd rsp em etms
  obtain ⟨req, resp, -, -, h⟩ := log_request_spec logger nowIso ep m sc uid rd rsp em etms
  exact ⟨_, h⟩

/-- C8: every telemetry dispatch failure is contained inside the emitter —
for every sink behavior `send_log` returns normally (nothing propagates),
makes exactly one outbound attempt (no retry, no re-queueing), prints a
local operator-visible diagnostic exactly on failure (non-200 reply or
raised exception), and discards the record. -/
theorem C8_dispatch_failure_contained :
    ∀ (url : String) (rec : TelemetryRecord) (sink : SinkOutcome),
      send_log url rec sink =
        .ok { attempts := 1,
              printed :=
                match sink with
                | .reply status =>
                    if status = 200 then none
                    else some ("Failed to send log to logging service: " ++ toString status)
                | .exc msg => some ("Error sending log to logging service: " ++ msg) } := by
  intro url rec sink
  cases sink with
  | reply status => by_cases h : status = 200 <;> simp [send_log, h]
  | exc msg => rfl

/-- C9: telemetry emission never blocks the caller — the caller-visible part
of a full `POST /orders` request (response and identity-call count) is
identical whatever the sink does (unreachable, stalled-and-timed-out,
erroring, succeeding): the record is handed to detached daemon threads the
caller holds no handle to, and every detached dispatch itself terminates
normally. -/
theorem C9_emission_never_blocks_caller :
    ∀ (authorization : Option String) (net : ReqOutcome) (order : OrderCreate)
      (dbFault : Option String) (nowIso : String) (execMs : Int)
      (sink₁ sink₂ : SinkOutcome),
      (runCreateOrderRequest authorization net order dbFault nowIso execMs sink₁).1 =
        (runCreateOrderRequest authorization net order dbFault nowIso execMs sink₂).1 ∧
      ((handleCreateOrder authorization net order dbFault nowIso execMs).1.2).all
          (fun th => th.daemon) = true ∧
      ∀ sink : SinkOutcome,
        ((runCreateOrderRequest authorization net order dbFault nowIso
            execMs sink).2).all isOkB = true := by
  intro authorization net order dbFault nowIso execMs sink₁ sink₂
  refine ⟨rfl, ?_, ?_⟩
  · rcases hr : require_auth authorization net with ⟨res, n⟩
    cases res with
    | ok user =>
        obtain ⟨th, h2, hd, -, -, -⟩ := create_order_spawned user order dbFault nowIso execMs
        simp [handleCreateOrder, hr, h2, hd]
    | error e => simp [handleCreateOrder, hr]
  · intro sink
    simp only [runCreateOrderRequest]
    refine List.all_eq_true.mpr ?_
    intro x hx
    obtain ⟨th, hth, rfl⟩ := List.mem_map.mp hx
    simpa [runThread] using send_log_isOk th.url th.target sink

/-- C10: when `process_payment` passes validation and the simulated charge
fails, the caller gets HTTP 400 "Payment processing failed" while the
freshly committed Payment row with status "failed" survives in the store —
the row is committed before the exception is raised and the `rollback` in
the handler cannot undo it, so the error path does change the payment
store. -/
theorem C10_failed_charge_row_persists :
    ∀ (user : Identity) (payment : PaymentCreate) (db : DB) (nowIso : String) (execMs : Int),
      0 < payment.amount → 0 < payment.order_id →
      pyStrip payment.payment_method ≠ "" →
      pyStrip payment.card_number ≠ "" →
      pyIsDigit (cleanCardNumber payment.card_number) = true →
      13 ≤ (cleanCardNumber payment.card_number).length →
      (cleanCardNumber payment.card_number).length ≤ 19 →
      db.pending = [] →
      (process_payment user payment false db nowIso execMs).1.1 =
        .error { status_code := 400, detail := "Payment processing failed" } ∧
      (process_payment user payment false db nowIso execMs).1.2.committed =
        db.committed ++
          [{ id := db.committed.length + 1, order_id := payment.order_id,
             amount := payment.amount, payment_method := pyStrip payment.payment_method,
             status := "failed" }] ∧
      (process_payment user payment false db nowIso execMs).1.2.committed ≠
        db.committed := by
  intro user payment db nowIso execMs h1 h2 h3 h4 h5 h6 h7 hpend
  have hcommit := DB.commit_add_empty db
    { order_id := payment.order_id, amount := payment.amount,
      payment_method := pyStrip payment.payment_method, status := "failed" } hpend
  have hbody : process_payment_body payment false db =
      (.httpExc { status_code := 400, detail := "Payment processing failed" },
       { committed := db.committed ++
           [{ id := db.committed.length + 1, order_id := payment.order_id,
              amount := payment.amount, payment_method := pyStrip payment.payment_method,
              status := "failed" }],
         pending := [] }) := by
    have hgl : ((db.add { order_id := payment.order_id,
                          amount := payment.amount,
                          payment_method := pyStrip payment.payment_method,
                          status := "failed" }).commit).committed.getLast? =
        some { id := db.committed.length + 1, order_id := payment.order_id,
               amount := payment.amount, payment_method := pyStrip payment.payment_method,
               status := "failed" } := by
      rw [hcommit]
      simp [List.getLast?_concat]
    simp [process_payment_body, show ¬(payment.amount ≤ 0) from not_le.mpr h1,
          show ¬(payment.order_id ≤ 0) from not_le.mpr h2, h3, h4, h5,
          show ¬((cleanCardNumber payment.card_number).length < 13) from not_lt.mpr h6,
          show ¬(19 < (cleanCardNumber payment.card_number).length) from not_lt.mpr h7,
          hgl, hcommit, List.concat_eq_append]
  obtain ⟨req, resp, -, -, hlr⟩ := log_request_spec payment_logger nowIso "/payments" "POST"
    400 (some user.user_id) (some (paymentPyData payment)) none
    (some "Payment processing failed") (some execMs)
  refine ⟨?_, ?_, ?_⟩
  · simp only [process_payment, hbody, hlr, spawnedOf]
  · simp only [process_payment, hbody, hlr, spawnedOf, DB.rollback]
  · simp only [process_payment, hbody, hlr, spawnedOf, DB.rollback]
    intro heq
    have := congrArg List.length heq
    simp at this

/-- C10 witness: a valid 100-unit card payment whose simulated charge fails
against an empty store — the caller gets 400 and the store ends with one
committed "failed" row. -/
theorem C10_witness :
    (process_payment ⟨7, "alice", "a@x.com"⟩
        { order_id := 1, amount := 100, payment_method := "card",
          card_number := "4111 1111 1111 1111" }
        false { committed := [], pending := [] } "2024-01-01T00:00:00" 2).1.1 =
      .error { status_code := 400, detail := "Payment processing failed" } ∧
    (process_payment ⟨7, "alice", "a@x.com"⟩
        { order_id := 1, amount := 100, payment_method := "card",
          card_number := "4111 1111 1111 1111" }
        false { committed := [], pending := [] } "2024-01-01T00:00:00" 2).1.2.committed =
      [{ id := 1, order_id := 1, amount := 100, payment_method := "card",
         status := "failed" }] := by
  have h := C10_failed_charge_row_persists ⟨7, "alice", "a@x.com"⟩
    { order_id := 1, amount := 100, payment_method := "card",
      card_number := "4111 1111 1111 1111" }
    { committed := [], pending := [] } "2024-01-01T00:00:00" 2
    (by decide) (by decide) (by decide) (by decide) (by decide) (by decide) (by decide) rfl
  exact ⟨h.1, by simpa using h.2.1⟩

end Bookstore
